import Mathlib

/-!
Shallow embedding of the BMI323 sensor-driver example
examples/mcu_alternate_config_any_no_motion/mcu_alternate_config_any_no_motion.c.

The program configures a BMI323 inertial sensor for any-motion / no-motion
detection with an alternate configuration, then runs an acquisition loop that
consumes two interrupt flags, reads status registers, reports samples and
alternate-configuration status, and terminates once a counter of any-motion
events reaches a limit (5 in the source).

The embedding models one pass of the main loop (mcu_alternate_config_any_no_motion.c
lines 289-365) as a pure function from an environment (the values the hardware
and bus return during that pass) and the current program state to a new state
plus a trace of observable actions (register reads and console reports), and
the whole loop as recursion over a list of per-pass environments.
-/

namespace BMI323

/-- Interrupt status bit masks. Modelled from the spec: the constants
BMI323_INT_STATUS_NO_MOTION, BMI323_INT_STATUS_ANY_MOTION,
BMI323_INT_STATUS_ACC_DRDY and BMI323_INT_STATUS_GYR_DRDY come from
bmi323_defs.h, which is not under src/; the spec requires only that the four
logical events are disambiguated by bitmask tests on distinct status bits. -/
def BMI323_INT_STATUS_NO_MOTION : Nat := 0x0001

/-- Any-motion bit of the INT2 status word (see the mask comment above). -/
def BMI323_INT_STATUS_ANY_MOTION : Nat := 0x0002

/-- Gyro data-ready bit of the INT1 status word (see the mask comment above). -/
def BMI323_INT_STATUS_GYR_DRDY : Nat := 0x1000

/-- Accel data-ready bit of the INT1 status word (see the mask comment above). -/
def BMI323_INT_STATUS_ACC_DRDY : Nat := 0x2000

/-- One sensor sample: axes plus sensor timestamp, the fields of
struct bmi323_sensor_data the example prints (lines 307-311 and 321-325). -/
structure Sample where
  x : Int
  y : Int
  z : Int
  sens_time : Nat
deriving DecidableEq

/-- Program state carried across loop passes: the two interrupt flags
drdy_int_status and feat_int_status (lines 18-19), the any-motion counter
count (line 214, a uint8_t, so increments are taken mod 256), and the two
fields of struct bmi323_alt_status alt_status (line 205). -/
structure LoopState where
  drdy_int_status : Bool
  feat_int_status : Bool
  count : Nat
  alt_accel_status : Nat
  alt_gyro_status : Nat
deriving DecidableEq

/-- Environment of one loop pass: whether each interrupt edge fired since the
previous pass (the callbacks at lines 171-182 set the flags), the word each
status-register read leaves in drdy_int / feat_int (lines 297, 335), the
samples bmi323_get_sensor_data yields (lines 304, 318), and the outcome of
each of the up-to-two bmi323_read_alternate_status calls (lines 343, 355):
some (a, g) on success, none when the read fails and the struct fields are
left as they were. -/
structure Env where
  drdyEdge : Bool
  featEdge : Bool
  int1Word : Nat
  int2Word : Nat
  accelSample : Sample
  gyroSample : Sample
  altRead1 : Option (Nat × Nat)
  altRead2 : Option (Nat × Nat)

/-- Observable actions of one loop pass, in program order: flag clears, the
local reset of alt_status (lines 332-333), register reads, and console
reports. -/
inductive Act where
  | clearDrdy
  | clearFeat
  | resetAlt
  | readStatus1 (w : Nat)
  | readStatus2 (w : Nat)
  | readAccel
  | readGyro
  | readAltStatus (ok : Bool)
  | reportAccel (sample : Sample)
  | reportGyro (sample : Sample)
  | reportAnyMotion
  | reportNoMotion
  | reportAltStatus (acc gyr : Nat)
deriving DecidableEq

/-- Effect of one bmi323_read_alternate_status call on the alt_status struct:
on success both fields are overwritten from the register; on failure the
struct is left unchanged (the caller never looks at rslt before printing the
fields, lines 343-345 and 355-357). -/
def altReadUpdate (r : Option (Nat × Nat)) (s : LoopState) : LoopState :=
  match r with
  | some p => { s with alt_accel_status := p.1, alt_gyro_status := p.2 }
  | none => s

/-- Data-ready branch of the loop, lines 291-327: clear drdy_int_status, read
the INT1 status word, and for each of the accel / gyro data-ready bits that is
set, read and report that sample. -/
def drdyBranch (e : Env) (s : LoopState) : LoopState × List Act :=
  let accActs := if e.int1Word &&& BMI323_INT_STATUS_ACC_DRDY ≠ 0 then
      [Act.readAccel, Act.reportAccel e.accelSample] else []
  let gyrActs := if e.int1Word &&& BMI323_INT_STATUS_GYR_DRDY ≠ 0 then
      [Act.readGyro, Act.reportGyro e.gyroSample] else []
  ({ s with drdy_int_status := false },
   Act.clearDrdy :: Act.readStatus1 e.int1Word :: (accActs ++ gyrActs))

/-- Any-motion sub-branch, lines 339-348: report the event, read the alternate
status, report its two fields, and increment count (a uint8_t, hence mod 256). -/
def anyMotionPart (e : Env) (s : LoopState) : LoopState × List Act :=
  if e.int2Word &&& BMI323_INT_STATUS_ANY_MOTION ≠ 0 then
    let s1 := altReadUpdate e.altRead1 s
    ({ s1 with count := (s1.count + 1) % 256 },
     [Act.reportAnyMotion, Act.readAltStatus e.altRead1.isSome,
      Act.reportAltStatus s1.alt_accel_status s1.alt_gyro_status])
  else (s, [])

/-- No-motion sub-branch, lines 351-358: report the event, read the alternate
status and report its two fields; count is not touched. -/
def noMotionPart (e : Env) (s : LoopState) : LoopState × List Act :=
  if e.int2Word &&& BMI323_INT_STATUS_NO_MOTION ≠ 0 then
    let s1 := altReadUpdate e.altRead2 s
    (s1,
     [Act.reportNoMotion, Act.readAltStatus e.altRead2.isSome,
      Act.reportAltStatus s1.alt_accel_status s1.alt_gyro_status])
  else (s, [])

/-- Feature branch of the loop, lines 329-359: clear feat_int_status, reset
both alt_status fields to 0 (the user value), read the INT2 status word, then
run the any-motion and no-motion sub-branches in that order. -/
def featBranch (e : Env) (s : LoopState) : LoopState × List Act :=
  let s1 := { s with feat_int_status := false, alt_accel_status := 0, alt_gyro_status := 0 }
  let p1 := anyMotionPart e s1
  let p2 := noMotionPart e p1.1
  (p2.1, Act.clearFeat :: Act.resetAlt :: Act.readStatus2 e.int2Word :: (p1.2 ++ p2.2))

/-- One pass of the while(1) body up to the termination check, lines 289-359:
the data-ready branch runs first when its flag is set, then the feature branch
when its flag is set. -/
def loopIter (e : Env) (s : LoopState) : LoopState × List Act :=
  let p1 := if s.drdy_int_status then drdyBranch e s else (s, [])
  let p2 := if p1.1.feat_int_status then featBranch e p1.1 else (p1.1, [])
  (p2.1, p1.2 ++ p2.2)

/-- Interrupt edges that fired since the previous pass set the corresponding
flag (callbacks at lines 171-182 run asynchronously; an edge ors the flag in). -/
def mergeEdges (e : Env) (s : LoopState) : LoopState :=
  { s with drdy_int_status := s.drdy_int_status || e.drdyEdge,
           feat_int_status := s.feat_int_status || e.featEdge }

/-- State after one full pass: pending edges are merged into the flags, then
the loop body runs. -/
def step (e : Env) (s : LoopState) : LoopState :=
  (loopIter e (mergeEdges e s)).1

/-- State after running a list of passes with no termination check. -/
def freeRun : List Env → LoopState → LoopState
  | [], s => s
  | e :: es, s => freeRun es (step e s)

/-- The while(1) loop, lines 289-365. Each pass consumes one environment;
after the body, the single exit check at line 361 compares count with limit
and breaks on equality. Returns some (k, s) when the loop exits after k
passes in state s, none when the environment list is exhausted with the loop
still running. -/
def runLoop (limit : Nat) : List Env → LoopState → Option (Nat × LoopState)
  | [], _ => none
  | e :: es, s =>
    let s1 := step e s
    if s1.count = limit then some (1, s1)
    else
      match runLoop limit es s1 with
      | none => none
      | some (k, sf) => some (k + 1, sf)

/-- Loop variant following the wording of the spec: the counter-based
termination check is evaluated at the top of each loop iteration, before the
body runs. Used to compare the spec phrasing with the source, where the check
sits at the bottom of the body (line 361). -/
def runLoopSpec (limit : Nat) : List Env → LoopState → Option (Nat × LoopState)
  | [], s => if s.count = limit then some (0, s) else none
  | e :: es, s =>
    if s.count = limit then some (0, s)
    else
      match runLoopSpec limit es (step e s) with
      | none => none
      | some (k, sf) => some (k + 1, sf)

/-- The three stages of set_feature_config (lines 94-166): the batched
bmi323_get_sensor_config of the seven slots, the batched
bmi323_set_sensor_config, and the bmi323_alternate_config_ctrl enable. -/
inductive Stage where
  | getConfig
  | setConfig
  | altCtrl
deriving DecidableEq

/-- Outcomes of the three bus transactions set_feature_config may issue. -/
structure CfgEnv where
  getOk : Bool
  setOk : Bool
  ctrlOk : Bool
deriving DecidableEq

/-- Arguments of the bmi323_alternate_config_ctrl call at lines 160-162:
which subsystems are enabled and whether the configuration is reset on an
alternate/user switch (BMI323_ALT_CONF_RESET_OFF means no reset). -/
structure AltCtrlArgs where
  accEnable : Bool
  gyrEnable : Bool
  resetOnSwitch : Bool
deriving DecidableEq

/-- set_feature_config, lines 94-166: get the seven configuration slots in one
batched read; only if that succeeds, set them in one batched write; only if
that succeeds, enable alternate-config control for accel and gyro with
BMI323_ALT_CONF_RESET_OFF. Returns the list of stages that executed and, when
the control stage ran, its arguments. -/
def set_feature_config (e : CfgEnv) : List Stage × Option AltCtrlArgs :=
  if e.getOk then
    if e.setOk then
      ([Stage.getConfig, Stage.setConfig, Stage.altCtrl],
       some { accEnable := true, gyrEnable := true, resetOnSwitch := false })
    else ([Stage.getConfig, Stage.setConfig], none)
  else ([Stage.getConfig], none)

/-- Modelled from the spec: the error policy for the configuration sequence
lives in bmi323_error_codes_print_result (examples/common/common.c, not under
src/) and in the caller; per the spec, a failing configuration stage surfaces
a ConfigError carrying the failing stage and is fatal for the session. -/
def configResult (e : CfgEnv) : Except Stage Unit :=
  if ¬ e.getOk then Except.error Stage.getConfig
  else if ¬ e.setOk then Except.error Stage.setConfig
  else if ¬ e.ctrlOk then Except.error Stage.altCtrl
  else Except.ok ()

/-- The two motion features that can drive a configuration switch: the values
BMI323_ALT_ANY_MOTION and BMI323_ALT_NO_MOTION used at lines 136-137. -/
inductive AltSwitchSrc where
  | altAnyMotion
  | altNoMotion
deriving DecidableEq

/-- The alternate-auto-config selector slot, struct field cfg.alt_auto_cfg:
which feature switches the sensor into the alternate configuration and which
switches it back to the user configuration. -/
structure AltAutoCfg where
  alt_switch_src_select : AltSwitchSrc
  user_switch_src_select : AltSwitchSrc
deriving DecidableEq

/-- The selector the program constructs at lines 136-137: no-motion drives the
alternate switch, any-motion drives the user switch. -/
def programAltAutoCfg : AltAutoCfg :=
  { alt_switch_src_select := AltSwitchSrc.altNoMotion,
    user_switch_src_select := AltSwitchSrc.altAnyMotion }

/-- Modelled from the spec: validation of the selector happens in the driver
(bmi323.c, not under src/); per the spec, constructing an AltAutoConfigSelector
with the same source assigned to both sides must fail, and distinct sources
succeed. -/
def mkAltAutoConfigSelector (alt user : AltSwitchSrc) : Option AltAutoCfg :=
  if alt = user then none
  else some { alt_switch_src_select := alt, user_switch_src_select := user }

/-- Process exit statuses: EXIT_SUCCESS returned at line 370, and the distinct
failure status exit(COINES_E_FAILURE) taken at line 87 when bmi323_init fails. -/
inductive ProcExit where
  | success
  | initFailure
deriving DecidableEq

/-- Initial loop state: both flags clear (lines 18-19), count = 0 (line 214),
alt_status zero-initialized (line 205). -/
def initialState : LoopState :=
  { drdy_int_status := false, feat_int_status := false, count := 0,
    alt_accel_status := 0, alt_gyro_status := 0 }

/-- The limit local of main, line 213. -/
def progLimit : Nat := 5

/-- End-to-end behaviour of main with respect to exit statuses: init_bmi323
(lines 71-89) calls exit(COINES_E_FAILURE) when bmi323_init fails; otherwise
the acquisition loop runs and, when it terminates, main returns EXIT_SUCCESS
(line 370). none means the loop was still running when the environment list
ran out. -/
def mainProgram (initOk : Bool) (envs : List Env) : Option ProcExit :=
  if initOk then
    match runLoop progLimit envs initialState with
    | some _ => some ProcExit.success
    | none => none
  else some ProcExit.initFailure

/-- A concrete accel sample used to instantiate theorems. -/
def sampleA : Sample := ⟨1, 2, 3, 4⟩

/-- A concrete gyro sample used to instantiate theorems. -/
def sampleG : Sample := ⟨5, 6, 7, 8⟩

/-- Concrete pass environment: feature edge, INT2 word with only the
any-motion bit, alternate-status reads succeeding. -/
def envAnyOnly : Env := ⟨false, true, 0, 2, sampleA, sampleG, some (1, 0), some (0, 0)⟩

/-- Concrete pass environment: feature edge, INT2 word with only the
no-motion bit. -/
def envNoOnly : Env := ⟨false, true, 0, 1, sampleA, sampleG, some (1, 0), some (0, 1)⟩

/-- Concrete pass environment: feature edge, INT2 word with both the
any-motion and no-motion bits. -/
def envBothFeat : Env := ⟨false, true, 0, 3, sampleA, sampleG, some (1, 0), some (0, 0)⟩

/-- Concrete pass environment: data-ready edge, INT1 word with both the accel
and gyro data-ready bits. -/
def envBothDrdy : Env := ⟨true, false, 0x3000, 0, sampleA, sampleG, none, none⟩

/-- Concrete pass environment: feature edge, any-motion bit set, both
alternate-status reads failing. -/
def envFailAny : Env := ⟨false, true, 0, 2, sampleA, sampleG, none, none⟩

/-- Concrete state with both interrupt flags pending. -/
def stateBothFlags : LoopState := ⟨true, true, 0, 7, 9⟩

/-- Concrete state with only the feature flag pending. -/
def stateFeatOnly : LoopState := ⟨false, true, 0, 7, 9⟩

/-- Concrete state with only the data-ready flag pending. -/
def stateDrdyOnly : LoopState := ⟨true, false, 3, 7, 9⟩

/-- Recognizes the clear of the data-ready flag in a trace. -/
def isClearDrdy : Act → Bool
  | Act.clearDrdy => true
  | _ => false

/-- Recognizes the clear of the feature flag in a trace. -/
def isClearFeat : Act → Bool
  | Act.clearFeat => true
  | _ => false

/-- Recognizes a read of the INT1 status register in a trace. -/
def isStatus1Read : Act → Bool
  | Act.readStatus1 _ => true
  | _ => false

/-- Recognizes a read of the INT2 status register in a trace. -/
def isStatus2Read : Act → Bool
  | Act.readStatus2 _ => true
  | _ => false

/-- Recognizes a bmi323_read_alternate_status call in a trace. -/
def isAltRead : Act → Bool
  | Act.readAltStatus _ => true
  | _ => false

/-- Recognizes a report of the two alternate-status fields in a trace. -/
def isAltReport : Act → Bool
  | Act.reportAltStatus _ _ => true
  | _ => false

/-- altReadUpdate never touches count. -/
theorem altReadUpdate_count (r : Option (Nat × Nat)) (s : LoopState) :
    (altReadUpdate r s).count = s.count := by
  cases r <;> rfl

/-- altReadUpdate never touches the data-ready flag. -/
theorem altReadUpdate_drdy (r : Option (Nat × Nat)) (s : LoopState) :
    (altReadUpdate r s).drdy_int_status = s.drdy_int_status := by
  cases r <;> rfl

/-- altReadUpdate never touches the feature flag. -/
theorem altReadUpdate_feat (r : Option (Nat × Nat)) (s : LoopState) :
    (altReadUpdate r s).feat_int_status = s.feat_int_status := by
  cases r <;> rfl

/-- The data-ready branch only clears its own flag in the state. -/
theorem drdyBranch_state (e : Env) (s : LoopState) :
    (drdyBranch e s).1 = { s with drdy_int_status := false } := rfl

/-- The no-motion sub-branch never touches count. -/
theorem noMotionPart_count (e : Env) (s : LoopState) :
    ((noMotionPart e s).1).count = s.count := by
  unfold noMotionPart
  split
  · simp [altReadUpdate_count]
  · rfl

/-- With the any-motion bit set, the any-motion sub-branch increments count
by one, modulo the uint8_t range. -/
theorem anyMotionPart_count_pos (e : Env) (s : LoopState)
    (h : e.int2Word &&& BMI323_INT_STATUS_ANY_MOTION ≠ 0) :
    ((anyMotionPart e s).1).count = (s.count + 1) % 256 := by
  unfold anyMotionPart
  rw [if_pos h]
  simp [altReadUpdate_count]

/-- With the any-motion bit clear, the any-motion sub-branch leaves count
unchanged. -/
theorem anyMotionPart_count_neg (e : Env) (s : LoopState)
    (h : e.int2Word &&& BMI323_INT_STATUS_ANY_MOTION = 0) :
    ((anyMotionPart e s).1).count = s.count := by
  unfold anyMotionPart
  rw [if_neg (by simp [h])]

/-- With the any-motion bit set, the feature branch increments count by one,
modulo the uint8_t range. -/
theorem featBranch_count_pos (e : Env) (s : LoopState)
    (h : e.int2Word &&& BMI323_INT_STATUS_ANY_MOTION ≠ 0) :
    ((featBranch e s).1).count = (s.count + 1) % 256 := by
  unfold featBranch
  rw [noMotionPart_count, anyMotionPart_count_pos _ _ h]

/-- With the any-motion bit clear, the feature branch leaves count unchanged. -/
theorem featBranch_count_neg (e : Env) (s : LoopState)
    (h : e.int2Word &&& BMI323_INT_STATUS_ANY_MOTION = 0) :
    ((featBranch e s).1).count = s.count := by
  unfold featBranch
  rw [noMotionPart_count, anyMotionPart_count_neg _ _ h]

/-- After one loop body pass, count is unchanged or incremented by one modulo
the uint8_t range. -/
theorem loopIter_count (e : Env) (s : LoopState) :
    ((loopIter e s).1).count = s.count ∨
      ((loopIter e s).1).count = (s.count + 1) % 256 := by
  unfold loopIter
  cases hd : s.drdy_int_status <;>
    simp only [hd, if_true, if_false, Bool.false_eq_true, drdyBranch_state] <;>
    cases hf : s.feat_int_status <;>
    by_cases ha : e.int2Word &&& BMI323_INT_STATUS_ANY_MOTION = 0 <;>
    simp [hf, featBranch_count_pos, featBranch_count_neg, ha]

/-- mergeEdges never touches count. -/
theorem mergeEdges_count (e : Env) (s : LoopState) :
    (mergeEdges e s).count = s.count := rfl

/-- After one full pass, count is unchanged or incremented by one modulo the
uint8_t range. -/
theorem step_count (e : Env) (s : LoopState) :
    (step e s).count = s.count ∨ (step e s).count = (s.count + 1) % 256 := by
  unfold step
  rcases loopIter_count e (mergeEdges e s) with h | h <;>
    rw [h, mergeEdges_count]
  · exact Or.inl rfl
  · exact Or.inr rfl

/-- While count is below a limit smaller than 256, one pass cannot push it
past the limit. -/
theorem step_count_le (limit : Nat) (e : Env) (s : LoopState)
    (hc : s.count < limit) (hl : limit < 256) : (step e s).count ≤ limit := by
  rcases step_count e s with h | h
  · omega
  · rw [h, Nat.mod_eq_of_lt (by omega)]
    omega

/-- When the loop exits, it does so after the first pass whose resulting count
equals the limit: the exit pass count is exactly the limit and every earlier
prefix stays strictly below it. -/
theorem runLoop_some_char (limit : Nat) (hl : limit < 256) :
    ∀ (envs : List Env) (s : LoopState), s.count < limit →
      ∀ k sf, runLoop limit envs s = some (k, sf) →
        1 ≤ k ∧ k ≤ envs.length ∧ sf = freeRun (envs.take k) s ∧
          sf.count = limit ∧
          ∀ j, j < k → (freeRun (envs.take j) s).count < limit := by
  intro envs
  induction envs with
  | nil =>
    intro s hc k sf h
    simp [runLoop] at h
  | cons e es ih =>
    intro s hc k sf h
    by_cases h1 : (step e s).count = limit
    · have heq : runLoop limit (e :: es) s = some (1, step e s) := by
        simp [runLoop, h1]
      rw [heq] at h
      simp only [Option.some.injEq, Prod.mk.injEq] at h
      obtain ⟨hk, hsf⟩ := h
      subst hk
      subst hsf
      refine ⟨le_refl 1, by simp, ?_, h1, ?_⟩
      · simp [List.take_succ_cons, freeRun]
      · intro j hj
        interval_cases j
        simpa [freeRun] using hc
    · have h1' : (step e s).count < limit :=
        lt_of_le_of_ne (step_count_le limit e s hc hl) h1
      cases hrec : runLoop limit es (step e s) with
      | none =>
        have heq : runLoop limit (e :: es) s = none := by
          simp [runLoop, h1, hrec]
        rw [heq] at h
        exact absurd h (by simp)
      | some p =>
        obtain ⟨kr, sfr⟩ := p
        have heq : runLoop limit (e :: es) s = some (kr + 1, sfr) := by
          simp [runLoop, h1, hrec]
        rw [heq] at h
        simp only [Option.some.injEq, Prod.mk.injEq] at h
        obtain ⟨hk, hsf⟩ := h
        subst hk
        subst hsf
        obtain ⟨ih1, ih2, ih3, ih4, ih5⟩ := ih (step e s) h1' kr sfr hrec
        refine ⟨by omega, by simp; omega, ?_, ih4, ?_⟩
        · simpa [List.take_succ_cons, freeRun] using ih3
        · intro j hj
          cases j with
          | zero => simpa [freeRun] using hc
          | succ jr =>
            have hx := ih5 jr (by omega)
            simpa [List.take_succ_cons, freeRun] using hx

/-- While the loop has not exited, every prefix of the run keeps count
strictly below the limit. -/
theorem runLoop_none_char (limit : Nat) (hl : limit < 256) :
    ∀ (envs : List Env) (s : LoopState), s.count < limit →
      runLoop limit envs s = none →
        ∀ j, j ≤ envs.length → (freeRun (envs.take j) s).count < limit := by
  intro envs
  induction envs with
  | nil =>
    intro s hc _ j hj
    have hj0 : j = 0 := by simpa using hj
    subst hj0
    simpa [freeRun] using hc
  | cons e es ih =>
    intro s hc h j hj
    by_cases h1 : (step e s).count = limit
    · have heq : runLoop limit (e :: es) s = some (1, step e s) := by
        simp [runLoop, h1]
      rw [heq] at h
      exact absurd h (by simp)
    · have h1' : (step e s).count < limit :=
        lt_of_le_of_ne (step_count_le limit e s hc hl) h1
      have hrec : runLoop limit es (step e s) = none := by
        cases hrec : runLoop limit es (step e s) with
        | none => rfl
        | some p =>
          have heq : runLoop limit (e :: es) s = some (p.1 + 1, p.2) := by
            simp [runLoop, h1, hrec]
          rw [heq] at h
          exact absurd h (by simp)
      cases j with
      | zero => simpa [freeRun] using hc
      | succ jr =>
        have hx := ih (step e s) h1' hrec jr (by simpa using hj)
        simpa [List.take_succ_cons, freeRun] using hx

/-- A loop with the check at the top exits immediately when count already
equals the limit. -/
theorem runLoopSpec_at_limit (limit : Nat) (envs : List Env) (s : LoopState)
    (h : s.count = limit) : runLoopSpec limit envs s = some (0, s) := by
  cases envs <;> simp [runLoopSpec, h]

/-- Starting strictly below a limit smaller than 256, the loop with the
termination check at the top of each iteration behaves exactly like the
loop in the source, whose check sits at the bottom of the body. -/
theorem runLoopSpec_eq_runLoop (limit : Nat) (hl : limit < 256) :
    ∀ (envs : List Env) (s : LoopState), s.count < limit →
      runLoopSpec limit envs s = runLoop limit envs s := by
  intro envs
  induction envs with
  | nil =>
    intro s hc
    simp [runLoopSpec, runLoop, Nat.ne_of_lt hc]
  | cons e es ih =>
    intro s hc
    have hne : s.count ≠ limit := Nat.ne_of_lt hc
    by_cases h1 : (step e s).count = limit
    · have hspec : runLoopSpec limit es (step e s) = some (0, step e s) :=
        runLoopSpec_at_limit limit es (step e s) h1
      simp [runLoopSpec, runLoop, hne, h1, hspec]
    · have h1' : (step e s).count < limit :=
        lt_of_le_of_ne (step_count_le limit e s hc hl) h1
      have hrw := ih (step e s) h1'
      simp [runLoopSpec, runLoop, hne, h1, hrw]

/-- Trace profile of the data-ready branch: exactly one clear of the
data-ready flag, exactly one INT1 status read, and none of the feature-side
actions. -/
theorem drdyBranch_countP (e : Env) (s : LoopState) :
    ((drdyBranch e s).2.countP isClearDrdy) = 1 ∧
      ((drdyBranch e s).2.countP isStatus1Read) = 1 ∧
      ((drdyBranch e s).2.countP isClearFeat) = 0 ∧
      ((drdyBranch e s).2.countP isStatus2Read) = 0 ∧
      ((drdyBranch e s).2.countP isAltRead) = 0 ∧
      ((drdyBranch e s).2.countP isAltReport) = 0 := by
  unfold drdyBranch
  by_cases h1 : e.int1Word &&& BMI323_INT_STATUS_ACC_DRDY ≠ 0 <;>
    by_cases h2 : e.int1Word &&& BMI323_INT_STATUS_GYR_DRDY ≠ 0 <;>
    simp [h1, h2, isClearDrdy, isStatus1Read, isClearFeat, isStatus2Read,
      isAltRead, isAltReport]

/-- Trace profile of the feature branch: exactly one clear of the feature
flag, exactly one INT2 status read, no data-ready-side actions, and one
alternate-status read and one alternate-status report per set motion bit. -/
theorem featBranch_countP (e : Env) (s : LoopState) :
    ((featBranch e s).2.countP isClearFeat) = 1 ∧
      ((featBranch e s).2.countP isStatus2Read) = 1 ∧
      ((featBranch e s).2.countP isClearDrdy) = 0 ∧
      ((featBranch e s).2.countP isStatus1Read) = 0 ∧
      ((featBranch e s).2.countP isAltRead) =
        ((if e.int2Word &&& BMI323_INT_STATUS_ANY_MOTION ≠ 0 then 1 else 0) +
         (if e.int2Word &&& BMI323_INT_STATUS_NO_MOTION ≠ 0 then 1 else 0)) ∧
      ((featBranch e s).2.countP isAltReport) =
        ((if e.int2Word &&& BMI323_INT_STATUS_ANY_MOTION ≠ 0 then 1 else 0) +
         (if e.int2Word &&& BMI323_INT_STATUS_NO_MOTION ≠ 0 then 1 else 0)) := by
  unfold featBranch anyMotionPart noMotionPart
  by_cases h1 : e.int2Word &&& BMI323_INT_STATUS_ANY_MOTION ≠ 0 <;>
    by_cases h2 : e.int2Word &&& BMI323_INT_STATUS_NO_MOTION ≠ 0 <;>
    simp [h1, h2, isClearDrdy, isStatus1Read, isClearFeat, isStatus2Read,
      isAltRead, isAltReport]

/-- The trace of one loop body pass is the data-ready branch trace (when its
flag is set) followed by the feature branch trace (when its flag is set). -/
theorem loopIter_acts (e : Env) (s : LoopState) :
    (loopIter e s).2 =
      (if s.drdy_int_status then (drdyBranch e s).2 else []) ++
      (if s.feat_int_status then
        (featBranch e (if s.drdy_int_status then
          { s with drdy_int_status := false } else s)).2 else []) := by
  cases hd : s.drdy_int_status <;> cases hf : s.feat_int_status <;>
    simp [loopIter, hd, hf, drdyBranch_state]

/-- A zero countP makes the predicate false on every element. -/
theorem countP_zero_forall {p : Act → Bool} {l : List Act}
    (h : l.countP p = 0) : ∀ a ∈ l, p a = false := by
  intro a ha
  have hx := List.countP_eq_zero.mp h a ha
  simpa using hx

/-- A pass whose feature flag is pending and whose INT2 word carries the
any-motion bit increments count by one modulo the uint8_t range, whatever the
data-ready side does. -/
theorem loopIter_count_featAny (e : Env) (s : LoopState)
    (hf : s.feat_int_status = true)
    (ha : e.int2Word &&& BMI323_INT_STATUS_ANY_MOTION ≠ 0) :
    (loopIter e s).1.count = (s.count + 1) % 256 := by
  cases hd : s.drdy_int_status <;>
    simp [loopIter, hd, hf, drdyBranch_state, featBranch_count_pos, ha]

/-- A pass whose INT2 word lacks the any-motion bit leaves count unchanged. -/
theorem loopIter_count_noAny (e : Env) (s : LoopState)
    (ha : e.int2Word &&& BMI323_INT_STATUS_ANY_MOTION = 0) :
    (loopIter e s).1.count = s.count := by
  cases hd : s.drdy_int_status <;> cases hf : s.feat_int_status <;>
    simp [loopIter, hd, hf, drdyBranch_state, featBranch_count_neg, ha]

/-- Number of alternate-status reads and reports in one pass with the feature
flag pending: one per set motion bit in the INT2 word. -/
theorem loopIter_altCounts (e : Env) (s : LoopState)
    (hf : s.feat_int_status = true) :
    ((loopIter e s).2.countP isAltRead) =
      ((if e.int2Word &&& BMI323_INT_STATUS_ANY_MOTION ≠ 0 then 1 else 0) +
       (if e.int2Word &&& BMI323_INT_STATUS_NO_MOTION ≠ 0 then 1 else 0)) ∧
    ((loopIter e s).2.countP isAltReport) =
      ((if e.int2Word &&& BMI323_INT_STATUS_ANY_MOTION ≠ 0 then 1 else 0) +
       (if e.int2Word &&& BMI323_INT_STATUS_NO_MOTION ≠ 0 then 1 else 0)) := by
  obtain ⟨-, -, -, -, hDr, hDp⟩ := drdyBranch_countP e s
  cases hd : s.drdy_int_status
  · obtain ⟨-, -, -, -, hFr, hFp⟩ := featBranch_countP e s
    simp [loopIter_acts, hd, hf, List.countP_append, hFr, hFp]
  · obtain ⟨-, -, -, -, hFr, hFp⟩ :=
      featBranch_countP e { s with drdy_int_status := false }
    simp only [hf] at hFr hFp
    simp [loopIter_acts, hd, hf, List.countP_append, hDr, hDp, hFr, hFp]

/-- Number of flag clears and status reads in one pass: one clear and one
status-1 read per pending data-ready flag, one clear and one status-2 read
per pending feature flag. -/
theorem loopIter_eventCounts (e : Env) (s : LoopState) :
    ((loopIter e s).2.countP isClearDrdy) =
        (if s.drdy_int_status then 1 else 0) ∧
    ((loopIter e s).2.countP isStatus1Read) =
        (if s.drdy_int_status then 1 else 0) ∧
    ((loopIter e s).2.countP isClearFeat) =
        (if s.feat_int_status then 1 else 0) ∧
    ((loopIter e s).2.countP isStatus2Read) =
        (if s.feat_int_status then 1 else 0) := by
  obtain ⟨hD1, hD2, hD3, hD4, -, -⟩ := drdyBranch_countP e s
  cases hd : s.drdy_int_status
  · obtain ⟨hF1, hF2, hF3, hF4, -, -⟩ := featBranch_countP e s
    cases hfl : s.feat_int_status <;>
      simp [loopIter_acts, hd, hfl, List.countP_append, hF1, hF2, hF3, hF4]
  · obtain ⟨hF1, hF2, hF3, hF4, -, -⟩ :=
      featBranch_countP e { s with drdy_int_status := false }
    cases hfl : s.feat_int_status <;>
      simp only [hfl] at hF1 hF2 hF3 hF4 <;>
      simp [loopIter_acts, hd, hfl, List.countP_append,
        hD1, hD2, hD3, hD4, hF1, hF2, hF3, hF4]

/-- C1: the acquisition loop exits exactly when the any-motion counter reaches
the configured limit: the exit pass is the first whose count equals the limit,
every earlier prefix stays strictly below it, a run that never reaches the
limit never exits, and the counter comparison is the only exit path — the
check at the bottom of the source body coincides with the spec wording of a
check at the top of each iteration. -/
theorem loop_termination_C1 (limit : Nat) (envs : List Env) (s : LoopState)
    (hc : s.count < limit) (hl : limit < 256) :
    (∀ k sf, runLoop limit envs s = some (k, sf) →
        1 ≤ k ∧ k ≤ envs.length ∧ sf = freeRun (envs.take k) s ∧
          sf.count = limit ∧
          ∀ j, j < k → (freeRun (envs.take j) s).count < limit) ∧
    (runLoop limit envs s = none →
        ∀ j, j ≤ envs.length → (freeRun (envs.take j) s).count < limit) ∧
    runLoopSpec limit envs s = runLoop limit envs s :=
  ⟨fun k sf h => runLoop_some_char limit hl envs s hc k sf h,
   fun h => runLoop_none_char limit hl envs s hc h,
   runLoopSpec_eq_runLoop limit hl envs s hc⟩

/-- Witness for C1: with limit 1 and one any-motion pass, the loop exits after
exactly that pass with count 1, and the spec-style loop agrees. -/
theorem loop_termination_C1_witness :
    runLoop 1 [envAnyOnly] initialState =
      some (1, (⟨false, false, 1, 1, 0⟩ : LoopState)) ∧
    (⟨false, false, 1, 1, 0⟩ : LoopState).count = 1 ∧
    runLoopSpec 1 [envAnyOnly] initialState =
      runLoop 1 [envAnyOnly] initialState := by
  have h := loop_termination_C1 1 [envAnyOnly] initialState
    (by decide) (by decide)
  exact ⟨by decide,
    (h.1 1 (⟨false, false, 1, 1, 0⟩ : LoopState) (by decide)).2.2.2.1,
    h.2.2⟩

/-- Trace of a pass with both flags pending: data-ready branch trace, then
the feature branch trace from the state with the data-ready flag cleared. -/
theorem loopIter_acts_tt (e : Env) (s : LoopState)
    (hd : s.drdy_int_status = true) (hf : s.feat_int_status = true) :
    (loopIter e s).2 =
      (drdyBranch e s).2 ++
        (featBranch e { s with drdy_int_status := false }).2 := by
  simp [loopIter, hd, hf, drdyBranch_state]

/-- Trace of a pass with only the data-ready flag pending. -/
theorem loopIter_acts_tf (e : Env) (s : LoopState)
    (hd : s.drdy_int_status = true) (hf : s.feat_int_status = false) :
    (loopIter e s).2 = (drdyBranch e s).2 := by
  simp [loopIter, hd, hf, drdyBranch_state]

/-- Trace of a pass with only the feature flag pending. -/
theorem loopIter_acts_ft (e : Env) (s : LoopState)
    (hd : s.drdy_int_status = false) (hf : s.feat_int_status = true) :
    (loopIter e s).2 = (featBranch e s).2 := by
  simp [loopIter, hd, hf]

/-- C3: in the configuration sequence (batched get of the seven slots, then
batched set, then enable of alternate-config control with no reset on switch),
a failing batched read aborts before the set and the control stage, a failing
batched write aborts before the control stage, the control stage runs with
both subsystems enabled and reset-on-switch off, and any stage failure
surfaces a fatal ConfigError naming the failing stage. -/
theorem config_builder_abort_C3 (e : CfgEnv) :
    (e.getOk = false →
      set_feature_config e = ([Stage.getConfig], none) ∧
      configResult e = Except.error Stage.getConfig) ∧
    (e.getOk = true → e.setOk = false →
      set_feature_config e = ([Stage.getConfig, Stage.setConfig], none) ∧
      configResult e = Except.error Stage.setConfig) ∧
    (e.getOk = true → e.setOk = true →
      (set_feature_config e).2 =
        some { accEnable := true, gyrEnable := true, resetOnSwitch := false }) ∧
    (e.getOk = true → e.setOk = true → e.ctrlOk = false →
      configResult e = Except.error Stage.altCtrl) := by
  obtain ⟨g, st, c⟩ := e
  cases g <;> cases st <;> cases c <;>
    simp [set_feature_config, configResult]

/-- Witness for C3 at a concrete environment whose batched read fails. -/
theorem config_builder_abort_C3_witness :
    set_feature_config ⟨false, true, true⟩ = ([Stage.getConfig], none) ∧
    configResult ⟨false, true, true⟩ = Except.error Stage.getConfig :=
  (config_builder_abort_C3 ⟨false, true, true⟩).1 rfl

/-- C4: the selector the program constructs assigns distinct members of
the any-motion / no-motion pair to the alternate switch and the user switch,
that construction succeeds, and constructing a selector with the same source
on both sides fails. -/
theorem alt_selector_distinct_C4 :
    programAltAutoCfg.alt_switch_src_select ≠
        programAltAutoCfg.user_switch_src_select ∧
    mkAltAutoConfigSelector programAltAutoCfg.alt_switch_src_select
        programAltAutoCfg.user_switch_src_select = some programAltAutoCfg ∧
    ∀ x : AltSwitchSrc, mkAltAutoConfigSelector x x = none := by
  refine ⟨by decide, by decide, ?_⟩
  intro x
  cases x <;> rfl

/-- Witness for C4: assigning the same source to both sides fails. -/
theorem alt_selector_distinct_C4_witness :
    mkAltAutoConfigSelector AltSwitchSrc.altAnyMotion
      AltSwitchSrc.altAnyMotion = none :=
  alt_selector_distinct_C4.2.2 AltSwitchSrc.altAnyMotion

/-- C8: a complete run exits with the distinct failure status exactly when
chip initialization fails, and with success otherwise. -/
theorem exit_status_C8 (initOk : Bool) (envs : List Env) (r : ProcExit)
    (h : mainProgram initOk envs = some r) :
    (initOk = false → r = ProcExit.initFailure) ∧
    (initOk = true → r = ProcExit.success) ∧
    ProcExit.success ≠ ProcExit.initFailure := by
  refine ⟨?_, ?_, by decide⟩
  · intro h0
    subst h0
    simp [mainProgram] at h
    exact h.symm
  · intro h1
    subst h1
    simp only [mainProgram, if_true] at h
    cases hr : runLoop progLimit envs initialState with
    | none => rw [hr] at h; simp at h
    | some p => rw [hr] at h; simp at h; exact h.symm

/-- Witness for C8: with failing initialization and an empty run the program
exits with the distinct failure status. -/
theorem exit_status_C8_witness :
    ProcExit.success ≠ ProcExit.initFailure ∧
    mainProgram false [] = some ProcExit.initFailure :=
  ⟨(exit_status_C8 false [] ProcExit.initFailure rfl).2.2, rfl⟩

/-- With both data-ready bits set, the data-ready branch reads and reports
both samples. -/
theorem drdyBranch_mem (e : Env) (s : LoopState)
    (h1 : e.int1Word &&& BMI323_INT_STATUS_ACC_DRDY ≠ 0)
    (h2 : e.int1Word &&& BMI323_INT_STATUS_GYR_DRDY ≠ 0) :
    Act.readAccel ∈ (drdyBranch e s).2 ∧
    Act.reportAccel e.accelSample ∈ (drdyBranch e s).2 ∧
    Act.readGyro ∈ (drdyBranch e s).2 ∧
    Act.reportGyro e.gyroSample ∈ (drdyBranch e s).2 := by
  unfold drdyBranch
  simp [h1, h2]

/-- With the any-motion bit set, the feature branch reports the any-motion
event. -/
theorem featBranch_mem_any (e : Env) (s : LoopState)
    (ha : e.int2Word &&& BMI323_INT_STATUS_ANY_MOTION ≠ 0) :
    Act.reportAnyMotion ∈ (featBranch e s).2 := by
  unfold featBranch anyMotionPart noMotionPart
  by_cases hn : e.int2Word &&& BMI323_INT_STATUS_NO_MOTION ≠ 0 <;>
    simp [ha, hn]

/-- With the no-motion bit set, the feature branch reports the no-motion
event. -/
theorem featBranch_mem_no (e : Env) (s : LoopState)
    (hn : e.int2Word &&& BMI323_INT_STATUS_NO_MOTION ≠ 0) :
    Act.reportNoMotion ∈ (featBranch e s).2 := by
  unfold featBranch anyMotionPart noMotionPart
  by_cases ha : e.int2Word &&& BMI323_INT_STATUS_ANY_MOTION ≠ 0 <;>
    simp [ha, hn]

/-- C2: in a pass with the feature flag pending, the any-motion bit makes the
counter increment by exactly one with the alternate status read and reported,
a no-motion-only status word leaves the counter unchanged with the alternate
status read and reported exactly once, and the no-motion sub-branch never
touches the counter. -/
theorem feature_event_counter_C2 (e : Env) (s : LoopState)
    (hf : s.feat_int_status = true) (hw : s.count + 1 < 256) :
    (e.int2Word &&& BMI323_INT_STATUS_ANY_MOTION ≠ 0 →
      (loopIter e s).1.count = s.count + 1 ∧
      1 ≤ ((loopIter e s).2.countP isAltRead) ∧
      1 ≤ ((loopIter e s).2.countP isAltReport)) ∧
    (e.int2Word &&& BMI323_INT_STATUS_ANY_MOTION = 0 →
     e.int2Word &&& BMI323_INT_STATUS_NO_MOTION ≠ 0 →
      (loopIter e s).1.count = s.count ∧
      ((loopIter e s).2.countP isAltRead) = 1 ∧
      ((loopIter e s).2.countP isAltReport) = 1) ∧
    (∀ t : LoopState, ((noMotionPart e t).1).count = t.count) := by
  obtain ⟨hr, hp⟩ := loopIter_altCounts e s hf
  refine ⟨?_, ?_, fun t => noMotionPart_count e t⟩
  · intro ha
    refine ⟨?_, ?_, ?_⟩
    · rw [loopIter_count_featAny e s hf ha, Nat.mod_eq_of_lt hw]
    · rw [hr, if_pos ha]
      exact Nat.le_add_right 1 _
    · rw [hp, if_pos ha]
      exact Nat.le_add_right 1 _
  · intro ha0 hn
    refine ⟨loopIter_count_noAny e s ha0, ?_, ?_⟩
    · rw [hr, if_neg (by simp [ha0]), if_pos hn]
    · rw [hp, if_neg (by simp [ha0]), if_pos hn]

/-- Witness for C2 at a concrete any-motion-only pass and a concrete
no-motion-only pass. -/
theorem feature_event_counter_C2_witness :
    ((loopIter envAnyOnly stateFeatOnly).1.count = stateFeatOnly.count + 1 ∧
      1 ≤ ((loopIter envAnyOnly stateFeatOnly).2.countP isAltRead) ∧
      1 ≤ ((loopIter envAnyOnly stateFeatOnly).2.countP isAltReport)) ∧
    ((loopIter envNoOnly stateFeatOnly).1.count = stateFeatOnly.count ∧
      ((loopIter envNoOnly stateFeatOnly).2.countP isAltRead) = 1 ∧
      ((loopIter envNoOnly stateFeatOnly).2.countP isAltReport) = 1) :=
  ⟨(feature_event_counter_C2 envAnyOnly stateFeatOnly rfl (by decide)).1
      (by decide),
   (feature_event_counter_C2 envNoOnly stateFeatOnly rfl (by decide)).2.1
      (by decide) (by decide)⟩

/-- C5: a pass whose data-ready flag is pending and whose INT1 word carries
both the accel and gyro data-ready bits reads and reports both samples, axes
plus timestamp each. -/
theorem both_drdy_reported_C5 (e : Env) (s : LoopState)
    (hd : s.drdy_int_status = true)
    (h1 : e.int1Word &&& BMI323_INT_STATUS_ACC_DRDY ≠ 0)
    (h2 : e.int1Word &&& BMI323_INT_STATUS_GYR_DRDY ≠ 0) :
    Act.readAccel ∈ (loopIter e s).2 ∧
    Act.reportAccel e.accelSample ∈ (loopIter e s).2 ∧
    Act.readGyro ∈ (loopIter e s).2 ∧
    Act.reportGyro e.gyroSample ∈ (loopIter e s).2 := by
  obtain ⟨m1, m2, m3, m4⟩ := drdyBranch_mem e s h1 h2
  simp [loopIter_acts, hd, m1, m2, m3, m4]

/-- Witness for C5 at a concrete pass with both data-ready bits set. -/
theorem both_drdy_reported_C5_witness :
    Act.reportAccel envBothDrdy.accelSample ∈
        (loopIter envBothDrdy stateDrdyOnly).2 ∧
    Act.reportGyro envBothDrdy.gyroSample ∈
        (loopIter envBothDrdy stateDrdyOnly).2 := by
  have h := both_drdy_reported_C5 envBothDrdy stateDrdyOnly rfl
    (by decide) (by decide)
  exact ⟨h.2.1, h.2.2.2⟩

/-- C9: in a pass whose INT2 word carries both motion bits, both sub-branches
run: the alternate status is read and reported twice, both events are
reported, and the counter increments by exactly one. -/
theorem both_motion_bits_C9 (e : Env) (s : LoopState)
    (hf : s.feat_int_status = true)
    (ha : e.int2Word &&& BMI323_INT_STATUS_ANY_MOTION ≠ 0)
    (hn : e.int2Word &&& BMI323_INT_STATUS_NO_MOTION ≠ 0)
    (hw : s.count + 1 < 256) :
    (loopIter e s).1.count = s.count + 1 ∧
    ((loopIter e s).2.countP isAltRead) = 2 ∧
    ((loopIter e s).2.countP isAltReport) = 2 ∧
    Act.reportAnyMotion ∈ (loopIter e s).2 ∧
    Act.reportNoMotion ∈ (loopIter e s).2 := by
  obtain ⟨hr, hp⟩ := loopIter_altCounts e s hf
  refine ⟨?_, ?_, ?_, ?_, ?_⟩
  · rw [loopIter_count_featAny e s hf ha, Nat.mod_eq_of_lt hw]
  · rw [hr, if_pos ha, if_pos hn]
  · rw [hp, if_pos ha, if_pos hn]
  · cases hd : s.drdy_int_status
    · have hm := featBranch_mem_any e s ha
      simp [loopIter_acts, hd, hf, hm]
    · have hm := featBranch_mem_any e { s with drdy_int_status := false } ha
      simp only [hf] at hm
      simp [loopIter_acts, hd, hf, hm]
  · cases hd : s.drdy_int_status
    · have hm := featBranch_mem_no e s hn
      simp [loopIter_acts, hd, hf, hm]
    · have hm := featBranch_mem_no e { s with drdy_int_status := false } hn
      simp only [hf] at hm
      simp [loopIter_acts, hd, hf, hm]

/-- Witness for C9 at a concrete pass with both motion bits set. -/
theorem both_motion_bits_C9_witness :
    (loopIter envBothFeat stateFeatOnly).1.count = stateFeatOnly.count + 1 ∧
    ((loopIter envBothFeat stateFeatOnly).2.countP isAltRead) = 2 ∧
    ((loopIter envBothFeat stateFeatOnly).2.countP isAltReport) = 2 := by
  have h := both_motion_bits_C9 envBothFeat stateFeatOnly rfl
    (by decide) (by decide) (by decide)
  exact ⟨h.1, h.2.1, h.2.2.1⟩

/-- The data-ready branch trace starts with the flag clear followed
immediately by the INT1 status read. -/
theorem drdyBranch_shape (e : Env) (s : LoopState) :
    ∃ tail, (drdyBranch e s).2 =
      Act.clearDrdy :: Act.readStatus1 e.int1Word :: tail :=
  ⟨_, rfl⟩

/-- The feature branch trace starts with the flag clear, the alt-status
reset, then the INT2 status read. -/
theorem featBranch_shape (e : Env) (s : LoopState) :
    ∃ tail, (featBranch e s).2 =
      Act.clearFeat :: Act.resetAlt :: Act.readStatus2 e.int2Word :: tail :=
  ⟨_, rfl⟩

/-- C6: a pass entered with a pending event flag clears that flag exactly
once, the clear sits on the same path directly before the corresponding
status-register read (for the feature flag with only the local alt-status
reset between), and exactly one such status read is issued: one status-1 read
per consumed data-ready flag and one status-2 read per consumed feature flag. -/
theorem event_flag_protocol_C6 (e : Env) (s : LoopState) :
    (s.drdy_int_status = true →
      (∃ rest, (loopIter e s).2 =
          Act.clearDrdy :: Act.readStatus1 e.int1Word :: rest) ∧
      ((loopIter e s).2.countP isClearDrdy) = 1 ∧
      ((loopIter e s).2.countP isStatus1Read) = 1) ∧
    (s.feat_int_status = true →
      (∃ pre rest, (loopIter e s).2 =
          pre ++ Act.clearFeat :: Act.resetAlt ::
            Act.readStatus2 e.int2Word :: rest ∧
          ∀ a ∈ pre, isClearFeat a = false ∧ isStatus2Read a = false) ∧
      ((loopIter e s).2.countP isClearFeat) = 1 ∧
      ((loopIter e s).2.countP isStatus2Read) = 1) := by
  obtain ⟨hc1, hc2, hc3, hc4⟩ := loopIter_eventCounts e s
  constructor
  · intro hd
    refine ⟨?_, by rw [hc1, if_pos hd], by rw [hc2, if_pos hd]⟩
    obtain ⟨tail, hsh⟩ := drdyBranch_shape e s
    cases hfl : s.feat_int_status
    · rw [loopIter_acts_tf e s hd hfl, hsh]
      exact ⟨_, rfl⟩
    · rw [loopIter_acts_tt e s hd hfl, hsh]
      exact ⟨tail ++ (featBranch e { s with drdy_int_status := false }).2,
        by simp⟩
  · intro hfl
    refine ⟨?_, by rw [hc3, if_pos hfl], by rw [hc4, if_pos hfl]⟩
    cases hd : s.drdy_int_status
    · obtain ⟨tail, hsh⟩ := featBranch_shape e s
      rw [loopIter_acts_ft e s hd hfl, hsh]
      exact ⟨[], tail, rfl, by simp⟩
    · obtain ⟨tail, hsh⟩ := featBranch_shape e { s with drdy_int_status := false }
      obtain ⟨-, -, hD3, hD4, -, -⟩ := drdyBranch_countP e s
      rw [loopIter_acts_tt e s hd hfl, hsh]
      refine ⟨(drdyBranch e s).2, tail, rfl, ?_⟩
      intro a ha
      exact ⟨countP_zero_forall hD3 a ha, countP_zero_forall hD4 a ha⟩

/-- Witness for C6 at a concrete pass with both flags pending. -/
theorem event_flag_protocol_C6_witness :
    ((loopIter envBothFeat stateBothFlags).2.countP isClearDrdy) = 1 ∧
    ((loopIter envBothFeat stateBothFlags).2.countP isStatus1Read) = 1 ∧
    ((loopIter envBothFeat stateBothFlags).2.countP isClearFeat) = 1 ∧
    ((loopIter envBothFeat stateBothFlags).2.countP isStatus2Read) = 1 := by
  have h1 := (event_flag_protocol_C6 envBothFeat stateBothFlags).1 rfl
  have h2 := (event_flag_protocol_C6 envBothFeat stateBothFlags).2 rfl
  exact ⟨h1.2.1, h1.2.2, h2.2.1, h2.2.2⟩

/-- With the any-motion bit set, the no-motion bit clear and a failing
alternate-status read, the feature branch reports and ends with the reset
user values in both fields. -/
theorem featBranch_anyFail (e : Env) (s : LoopState)
    (ha : e.int2Word &&& BMI323_INT_STATUS_ANY_MOTION ≠ 0)
    (hn0 : e.int2Word &&& BMI323_INT_STATUS_NO_MOTION = 0)
    (hr : e.altRead1 = none) :
    (featBranch e s).1.alt_accel_status = 0 ∧
    (featBranch e s).1.alt_gyro_status = 0 ∧
    Act.reportAltStatus 0 0 ∈ (featBranch e s).2 := by
  unfold featBranch anyMotionPart noMotionPart
  simp [ha, hn0, hr, altReadUpdate]

/-- With the no-motion bit set, the any-motion bit clear and a failing
alternate-status read, the feature branch reports and ends with the reset
user values in both fields. -/
theorem featBranch_noFail (e : Env) (s : LoopState)
    (ha0 : e.int2Word &&& BMI323_INT_STATUS_ANY_MOTION = 0)
    (hn : e.int2Word &&& BMI323_INT_STATUS_NO_MOTION ≠ 0)
    (hr : e.altRead2 = none) :
    (featBranch e s).1.alt_accel_status = 0 ∧
    (featBranch e s).1.alt_gyro_status = 0 ∧
    Act.reportAltStatus 0 0 ∈ (featBranch e s).2 := by
  unfold featBranch anyMotionPart noMotionPart
  simp [ha0, hn, hr, altReadUpdate]

/-- C7: on every feature event both alt-status fields are reset to the user
value before the status-2 read and before any alternate-status read, so a
failing alternate-status read makes the pass report the user defaults and
leave the user defaults in the fields, and the read outcome never influences
the counter that controls loop exit. -/
theorem alt_status_user_default_C7 (e : Env) (s : LoopState)
    (hf : s.feat_int_status = true) :
    (∃ pre rest, (loopIter e s).2 =
        pre ++ Act.resetAlt :: Act.readStatus2 e.int2Word :: rest ∧
        ∀ a ∈ pre, isAltRead a = false) ∧
    (e.int2Word &&& BMI323_INT_STATUS_ANY_MOTION ≠ 0 →
     e.int2Word &&& BMI323_INT_STATUS_NO_MOTION = 0 →
     e.altRead1 = none →
      Act.reportAltStatus 0 0 ∈ (loopIter e s).2 ∧
      (loopIter e s).1.alt_accel_status = 0 ∧
      (loopIter e s).1.alt_gyro_status = 0) ∧
    (e.int2Word &&& BMI323_INT_STATUS_ANY_MOTION = 0 →
     e.int2Word &&& BMI323_INT_STATUS_NO_MOTION ≠ 0 →
     e.altRead2 = none →
      Act.reportAltStatus 0 0 ∈ (loopIter e s).2 ∧
      (loopIter e s).1.alt_accel_status = 0 ∧
      (loopIter e s).1.alt_gyro_status = 0) ∧
    (∀ r1 r2 : Option (Nat × Nat),
      (loopIter { e with altRead1 := r1, altRead2 := r2 } s).1.count =
        (loopIter e s).1.count) := by
  refine ⟨?_, ?_, ?_, ?_⟩
  · cases hd : s.drdy_int_status
    · obtain ⟨tail, hsh⟩ := featBranch_shape e s
      rw [loopIter_acts_ft e s hd hf, hsh]
      exact ⟨[Act.clearFeat], tail, rfl, by simp [isAltRead]⟩
    · obtain ⟨tail, hsh⟩ := featBranch_shape e { s with drdy_int_status := false }
      obtain ⟨-, -, -, -, hD5, -⟩ := drdyBranch_countP e s
      rw [loopIter_acts_tt e s hd hf, hsh]
      refine ⟨(drdyBranch e s).2 ++ [Act.clearFeat], tail, by simp, ?_⟩
      intro a ha
      rcases List.mem_append.mp ha with h | h
      · exact countP_zero_forall hD5 a h
      · simp only [List.mem_singleton] at h
        subst h
        rfl
  · intro ha hn0 hrd
    cases hd : s.drdy_int_status
    · have hx := featBranch_anyFail e s ha hn0 hrd
      constructor
      · simp [loopIter_acts, hd, hf, hx.2.2]
      · simp [loopIter, hd, hf]
        exact ⟨hx.1, hx.2.1⟩
    · have hx := featBranch_anyFail e { s with drdy_int_status := false } ha hn0 hrd
      constructor
      · simp only [hf] at hx
        simp [loopIter_acts, hd, hf, hx.2.2]
      · simp [loopIter, hd, hf, drdyBranch_state]
        exact ⟨hx.1, hx.2.1⟩
  · intro ha0 hn hrd
    cases hd : s.drdy_int_status
    · have hx := featBranch_noFail e s ha0 hn hrd
      constructor
      · simp [loopIter_acts, hd, hf, hx.2.2]
      · simp [loopIter, hd, hf]
        exact ⟨hx.1, hx.2.1⟩
    · have hx := featBranch_noFail e { s with drdy_int_status := false } ha0 hn hrd
      constructor
      · simp only [hf] at hx
        simp [loopIter_acts, hd, hf, hx.2.2]
      · simp [loopIter, hd, hf, drdyBranch_state]
        exact ⟨hx.1, hx.2.1⟩
  · intro r1 r2
    by_cases ha : e.int2Word &&& BMI323_INT_STATUS_ANY_MOTION = 0
    · rw [loopIter_count_noAny { e with altRead1 := r1, altRead2 := r2 } s ha,
        loopIter_count_noAny e s ha]
    · rw [loopIter_count_featAny { e with altRead1 := r1, altRead2 := r2 } s hf ha,
        loopIter_count_featAny e s hf ha]

/-- Witness for C7 at a concrete pass whose alternate-status read fails. -/
theorem alt_status_user_default_C7_witness :
    Act.reportAltStatus 0 0 ∈ (loopIter envFailAny stateFeatOnly).2 ∧
    (loopIter envFailAny stateFeatOnly).1.alt_accel_status = 0 ∧
    (loopIter envFailAny stateFeatOnly).1.alt_gyro_status = 0 :=
  (alt_status_user_default_C7 envFailAny stateFeatOnly rfl).2.1
    (by decide) (by decide) rfl

/-- C10: the data-ready branch leaves the any-motion counter, the feature
flag and both alternate-status fields unchanged, and a pass in which only the
data-ready branch can run preserves all of them. -/
theorem drdy_branch_frame_C10 (e : Env) (s : LoopState) :
    ((drdyBranch e s).1.count = s.count ∧
     (drdyBranch e s).1.feat_int_status = s.feat_int_status ∧
     (drdyBranch e s).1.alt_accel_status = s.alt_accel_status ∧
     (drdyBranch e s).1.alt_gyro_status = s.alt_gyro_status) ∧
    (s.feat_int_status = false →
      (loopIter e s).1.count = s.count ∧
      (loopIter e s).1.feat_int_status = false ∧
      (loopIter e s).1.alt_accel_status = s.alt_accel_status ∧
      (loopIter e s).1.alt_gyro_status = s.alt_gyro_status) := by
  refine ⟨⟨rfl, rfl, rfl, rfl⟩, ?_⟩
  intro hf
  cases hd : s.drdy_int_status <;> simp [loopIter, hd, hf, drdyBranch_state]

/-- Witness for C10 at a concrete data-ready-only pass. -/
theorem drdy_branch_frame_C10_witness :
    (loopIter envBothDrdy stateDrdyOnly).1.count = stateDrdyOnly.count ∧
    (loopIter envBothDrdy stateDrdyOnly).1.alt_accel_status =
      stateDrdyOnly.alt_accel_status ∧
    (loopIter envBothDrdy stateDrdyOnly).1.alt_gyro_status =
      stateDrdyOnly.alt_gyro_status := by
  have h := (drdy_branch_frame_C10 envBothDrdy stateDrdyOnly).2 rfl
  exact ⟨h.1, h.2.2.1, h.2.2.2⟩

end BMI323
